import Mathlib

/-!
Shallow embedding of the MAS coordinator pipeline from `task/agent.py`
(`MASCoordinator`) of the ai-dial-mas-coordinator-for-gpa-uma repository,
together with theorems settling the specification claims about it.

The repository ships only `task/agent.py` and `task/app.py`; the modules
`task/models.py` (AgentName, CoordinationRequest), `task/prompts.py`,
`task/stage_util.py` (StageProcessor) and the two gateway modules are not
present, so their shapes are modelled from the spec where needed (each such
definition carries a doc comment saying so).  Network effects (the two LLM
calls and the agent gateway call) are modelled by oracles: the decision
outcome, the gateway response function and the synthesis stream are inputs,
and the pipeline records an event trace of the calls it issues and the
progress stages it opens and closes.
-/

namespace MASCoord

/-- Message roles, as used by the coordinator (`Role.SYSTEM`, `Role.USER`,
`Role.ASSISTANT` from the DIAL SDK). -/
inductive Role where
  | system
  | user
  | assistant
deriving DecidableEq, Repr

/-- Opaque structured payload carried by a message (`custom_content` in the
DIAL SDK); the coordinator never inspects it, so it is modelled as an opaque
wrapper. -/
structure CustomContent where
  payload : String
deriving DecidableEq, Repr

/-- An inbound conversation message: `role`, textual `content`, and optional
`custom_content` (UI metadata).  Mirrors the fields of the DIAL SDK `Message`
that `MASCoordinator` reads. -/
structure Msg where
  role : Role
  content : String
  custom_content : Option CustomContent
deriving DecidableEq, Repr

/-- An entry of the message list handed to an LLM call.  In the source these
are plain dicts; the keys actually produced are `role`, `content`, and — only
on the `m.dict(exclude_none=True)` branch — `custom_content` when it is set
(`none` models an absent key). -/
structure OutMsg where
  role : Role
  content : String
  custom_content : Option CustomContent
deriving DecidableEq, Repr

/-- The per-message rule of `MASCoordinator.__prepare_messages`
(`task/agent.py` lines 106-116): a User message carrying `custom_content` is
emitted as a plain role/content pair (the metadata is dropped); any other
message is emitted via `m.dict(exclude_none=True)`, which keeps its
`custom_content` when set. -/
def emit_message (m : Msg) : OutMsg :=
  if m.custom_content.isSome ∧ m.role = Role.user then
    { role := Role.user, content := m.content, custom_content := none }
  else
    { role := m.role, content := m.content, custom_content := m.custom_content }

/-- `MASCoordinator.__prepare_messages` (`task/agent.py` lines 93-118): the
system prompt entry followed by the transformed inbound messages in order. -/
def prepare_messages (request_messages : List Msg) (system_prompt : String) :
    List OutMsg :=
  { role := Role.system, content := system_prompt, custom_content := none }
    :: request_messages.map emit_message

/-- Modelled from the spec: `task/models.py` is absent from src/.  The spec
declares `agentName: enum(GeneralPurpose, UserManagementService)`; the
`unknown` constructor represents an out-of-enumeration value reaching the
dispatch (the defensive `else` branch of the source). -/
inductive AgentName where
  | GPA
  | UMS
  | unknown (value : String)
deriving DecidableEq, Repr

/-- Display name of an agent, used in the `Call <AgentName> Agent` stage
label.  Modelled from the spec: the enum member names are `GeneralPurpose`
and `UserManagementService`. -/
def AgentName.display : AgentName → String
  | .GPA => "GeneralPurpose"
  | .UMS => "UserManagementService"
  | .unknown v => v

/-- Modelled from the spec: `task/models.py` is absent from src/.  The
coordination decision: `agentName` plus free-text instructions. -/
structure CoordinationRequest where
  agent_name : AgentName
  additional_instructions : String
deriving DecidableEq, Repr

/-- Errors are modelled as their message strings. -/
abbrev Err := String

/-- The two concrete agent gateways constructed by the dispatch
(`GPAGateway(endpoint=...)` and `UMSAgentGateway(ums_agent_endpoint=...)`),
identified by kind and the endpoint they were constructed with. -/
inductive AgentGateway where
  | GPAGateway (endpoint : String)
  | UMSAgentGateway (ums_agent_endpoint : String)
deriving DecidableEq, Repr

/-- The per-request configuration of `MASCoordinator.__init__`. -/
structure MASCoordinator where
  endpoint : String
  deployment_name : String
  ums_agent_endpoint : String

/-- The gateway-selection part of
`MASCoordinator.__handle_coordination_request` (`task/agent.py` lines
129-134): an exhaustive match on `agent_name` that raises
`ValueError("Unknown Agent")` on anything other than the two known members,
before any gateway is constructed or invoked. -/
def select_agent (self : MASCoordinator) (agent_name : AgentName) :
    Except Err AgentGateway :=
  match agent_name with
  | .GPA => .ok (.GPAGateway self.endpoint)
  | .UMS => .ok (.UMSAgentGateway self.ums_agent_endpoint)
  | .unknown _ => .error "Unknown Agent"

/-- `MASCoordinator.__handle_coordination_request` (`task/agent.py` lines
120-141): select the gateway by `agent_name`, then await its `response`.
`respond` is the oracle for the selected gateway's behaviour (the gateway
implementations are external collaborators); the second component of the
result lists the gateways actually invoked, in order. -/
def handle_coordination_request (self : MASCoordinator)
    (coordination_request : CoordinationRequest)
    (respond : AgentGateway → String → Except Err Msg) :
    Except Err Msg × List AgentGateway :=
  match select_agent self coordination_request.agent_name with
  | .error e => (.error e, [])
  | .ok agent => (respond agent coordination_request.additional_instructions, [agent])

/-- Modelled from the spec: `task/prompts.py` is absent from src/; the
concrete prompt text is irrelevant to every claim, only its identity as the
first entry matters. -/
def COORDINATION_REQUEST_SYSTEM_PROMPT : String :=
  "COORDINATION_REQUEST_SYSTEM_PROMPT"

/-- Modelled from the spec: `task/prompts.py` is absent from src/. -/
def FINAL_RESPONSE_SYSTEM_PROMPT : String :=
  "FINAL_RESPONSE_SYSTEM_PROMPT"

/-- The augmented prompt of `MASCoordinator.__final_response`
(`task/agent.py` line 154): the f-string
`## CONTEXT:\n {agent_message.content}\n ---\n ## USER_REQUEST: \n {messages[-1][content]}`. -/
def updated_user_request (agent_content last_content : String) : String :=
  "## CONTEXT:\n " ++ agent_content ++ "\n ---\n ## USER_REQUEST: \n " ++ last_content

/-- The message-list construction of `MASCoordinator.__final_response`
(`task/agent.py` lines 152-156): rebuild the history with the final-response
system prompt, then overwrite the content of the last entry with the
CONTEXT / USER_REQUEST composite.  The list returned by `prepare_messages`
is never empty, so the `none` arm is unreachable. -/
def final_response_messages (request_messages : List Msg)
    (agent_content : String) : List OutMsg :=
  let messages := prepare_messages request_messages FINAL_RESPONSE_SYSTEM_PROMPT
  match messages.getLast? with
  | none => messages
  | some last =>
      messages.dropLast ++
        [{ last with content := updated_user_request agent_content last.content }]

/-- One `delta` object of a streamed chunk choice. -/
structure ChunkDelta where
  content : Option String
deriving DecidableEq, Repr

/-- One choice of a streamed chunk. -/
structure ChunkChoice where
  delta : Option ChunkDelta
deriving DecidableEq, Repr

/-- One chunk of the streaming synthesis response. -/
structure StreamChunk where
  choices : List ChunkChoice
deriving DecidableEq, Repr

/-- The fragment a chunk contributes, if any, per the guards of
`task/agent.py` lines 166-168: the choices list must be non-empty (only then
is `chunk.choices[0]` accessed), its first choice must have a `delta`, and
`delta.content` must be truthy (present and non-empty). -/
def chunk_fragment (chunk : StreamChunk) : Option String :=
  match chunk.choices with
  | [] => none
  | c :: _ =>
    match c.delta with
    | none => none
    | some d =>
      match d.content with
      | none => none
      | some s => if s = "" then none else some s

/-- One iteration of the streaming loop of `MASCoordinator.__final_response`
(`task/agent.py` lines 165-170) on the accumulator pair
(accumulated `content`, fragments appended to `choice` so far): a chunk that
passes the guards appends its delta content to both, otherwise nothing
happens. -/
def stream_step (acc : String × List String) (chunk : StreamChunk) :
    String × List String :=
  match chunk_fragment chunk with
  | none => acc
  | some s => (acc.1 ++ s, acc.2 ++ [s])

/-- The fragments contributed by a chunk sequence, in arrival order: exactly
the non-empty first-choice delta contents. -/
def fragments (chunks : List StreamChunk) : List String :=
  chunks.filterMap chunk_fragment

/-- The streaming-and-assembly part of `MASCoordinator.__final_response`
(`task/agent.py` lines 164-176): fold the loop over the chunk sequence, then
build the final `Message` with the accumulated content and the agent
message's `custom_content`.  The second component is the sequence of
fragments emitted to the caller-visible `choice`, in order. -/
def final_response (chunks : List StreamChunk) (agent_message : Msg) :
    Msg × List String :=
  let r := chunks.foldl stream_step ("", [])
  ({ role := Role.assistant, content := r.1,
     custom_content := agent_message.custom_content }, r.2)

/-- Observable events of one `handle_request` run: progress-stage openings
and closings (stages are identified by the order of their `open_stage` call:
id 0 is `Coordination Request`, id 1 is `Call <AgentName> Agent`), the
non-streaming decision LLM call, the gateway invocation, and the streaming
synthesis LLM call. -/
inductive Event where
  | stage_opened (id : Nat) (name : String)
  | stage_closed (id : Nat)
  | decision_llm_call (messages : List OutMsg)
  | gateway_call (agent : AgentGateway)
  | synthesis_llm_call (messages : List OutMsg)
deriving DecidableEq, Repr

/-- Oracles for the three external effects of one pipeline run: the outcome
of `__prepare_coordination_request` (its LLM call plus schema validation),
the selected gateway's `response`, and the synthesis stream (a transport
error or the chunk sequence). -/
structure Oracle where
  decision : Except Err CoordinationRequest
  respond : AgentGateway → String → Except Err Msg
  synthesis_stream : Except Err (List StreamChunk)

/-- `MASCoordinator.handle_request` (`task/agent.py` lines 26-62) as a
trace-producing function: open the `Coordination Request` stage, issue the
decision call, close that stage, open the `Call <AgentName> Agent` stage,
select and invoke the gateway, close that stage, issue the streaming
synthesis call, and assemble the final message.  The source has no
`try`/`finally`: an error at any step propagates immediately, so the trace
stops where the exception is raised — in particular the
`StageProcessor.close_stage_safely` call for a stage is only reached on the
success path of the phase that follows its opening. -/
def handle_request (self : MASCoordinator) (o : Oracle)
    (request_messages : List Msg) : Except Err Msg × List Event :=
  let t0 : List Event :=
    [.stage_opened 0 "Coordination Request",
     .decision_llm_call
       (prepare_messages request_messages COORDINATION_REQUEST_SYSTEM_PROMPT)]
  match o.decision with
  | .error e => (.error e, t0)
  | .ok prepared_request =>
    let stage2 := "Call " ++ prepared_request.agent_name.display ++ " Agent"
    let t1 := t0 ++ [.stage_closed 0, .stage_opened 1 stage2]
    match select_agent self prepared_request.agent_name with
    | .error e => (.error e, t1)
    | .ok agent =>
      let t2 := t1 ++ [.gateway_call agent]
      match o.respond agent prepared_request.additional_instructions with
      | .error e => (.error e, t2)
      | .ok agent_message =>
        let t3 := t2 ++
          [.stage_closed 1,
           .synthesis_llm_call
             (final_response_messages request_messages agent_message.content)]
        match o.synthesis_stream with
        | .error e => (.error e, t3)
        | .ok chunks =>
          (.ok (final_response chunks agent_message).1, t3)

/-- Every progress stage opened in the trace is also closed in it. -/
def stages_closed (t : List Event) : Prop :=
  ∀ id name, Event.stage_opened id name ∈ t → Event.stage_closed id ∈ t

/-- A gateway-response oracle that always succeeds, used by concrete
witnesses. -/
def respond_ok : AgentGateway → String → Except Err Msg :=
  fun _ _ =>
    Except.ok { role := Role.assistant, content := "agent answer", custom_content := none }

/-- Claim C2: for every inbound conversation and system prompt, the built
message list has length = number of inbound messages + 1, its first entry is
the System entry carrying the given system prompt, and its remaining entries
are the transforms of the inbound messages in their original order. -/
theorem prepare_messages_shape (request_messages : List Msg)
    (system_prompt : String) :
    (prepare_messages request_messages system_prompt).length =
        request_messages.length + 1 ∧
    (prepare_messages request_messages system_prompt).head? =
        some { role := Role.system, content := system_prompt, custom_content := none } ∧
    (prepare_messages request_messages system_prompt).tail =
        request_messages.map emit_message := by
  refine ⟨?_, rfl, rfl⟩
  simp [prepare_messages]

/-- Claim C3: an inbound message at position `i` whose role is User and whose
`custom_content` is present is emitted (at position `i + 1`, after the system
entry) as an entry holding only role User and the message's plain-text
content; its `custom_content` does not appear in that entry. -/
theorem prepare_messages_strips_user_custom_content
    (request_messages : List Msg) (system_prompt : String) (i : Nat) (m : Msg)
    (hm : request_messages[i]? = some m)
    (hrole : m.role = Role.user)
    (hcc : m.custom_content.isSome) :
    (prepare_messages request_messages system_prompt)[i + 1]? =
      some { role := Role.user, content := m.content, custom_content := none } := by
  have h1 : (prepare_messages request_messages system_prompt)[i + 1]? =
      (request_messages.map emit_message)[i]? := by
    simp [prepare_messages]
  rw [h1, List.getElem?_map, hm]
  simp [emit_message, hrole, hcc]

/-- Witness for C3 at a concrete one-message conversation. -/
theorem prepare_messages_strips_user_custom_content_witness :
    (prepare_messages [⟨Role.user, "hi", some ⟨"meta"⟩⟩] "SP")[1]? =
      some ⟨Role.user, "hi", none⟩ :=
  prepare_messages_strips_user_custom_content
    [⟨Role.user, "hi", some ⟨"meta"⟩⟩] "SP" 0
    ⟨Role.user, "hi", some ⟨"meta"⟩⟩ rfl rfl rfl

/-- Claim C1: the dispatch of `__handle_coordination_request` selects exactly
one gateway by `agent_name`: on `GPA` exactly the GPA gateway is invoked, on
`UMS` exactly the UMS gateway is invoked, and on any other value it raises
`Unknown Agent` with no gateway invoked at all. -/
theorem dispatch_routing_exclusive (self : MASCoordinator)
    (cr : CoordinationRequest)
    (respond : AgentGateway → String → Except Err Msg) :
    (cr.agent_name = AgentName.GPA →
      (handle_coordination_request self cr respond).2 =
        [AgentGateway.GPAGateway self.endpoint]) ∧
    (cr.agent_name = AgentName.UMS →
      (handle_coordination_request self cr respond).2 =
        [AgentGateway.UMSAgentGateway self.ums_agent_endpoint]) ∧
    (∀ v, cr.agent_name = AgentName.unknown v →
      (handle_coordination_request self cr respond).1 = Except.error "Unknown Agent" ∧
      (handle_coordination_request self cr respond).2 = []) := by
  refine ⟨fun h => ?_, fun h => ?_, fun v h => ?_⟩ <;>
    simp [handle_coordination_request, select_agent, h]

/-- Witness for C1 at concrete coordination requests, one per branch. -/
theorem dispatch_routing_exclusive_witness :
    (handle_coordination_request ⟨"ep", "dep", "ue"⟩
        ⟨AgentName.GPA, "i"⟩ respond_ok).2 = [AgentGateway.GPAGateway "ep"] ∧
    (handle_coordination_request ⟨"ep", "dep", "ue"⟩
        ⟨AgentName.UMS, "i"⟩ respond_ok).2 = [AgentGateway.UMSAgentGateway "ue"] ∧
    ((handle_coordination_request ⟨"ep", "dep", "ue"⟩
        ⟨AgentName.unknown "Bogus", "i"⟩ respond_ok).1 = Except.error "Unknown Agent" ∧
     (handle_coordination_request ⟨"ep", "dep", "ue"⟩
        ⟨AgentName.unknown "Bogus", "i"⟩ respond_ok).2 = []) :=
  ⟨(dispatch_routing_exclusive ⟨"ep", "dep", "ue"⟩ ⟨AgentName.GPA, "i"⟩ respond_ok).1 rfl,
   (dispatch_routing_exclusive ⟨"ep", "dep", "ue"⟩ ⟨AgentName.UMS, "i"⟩ respond_ok).2.1 rfl,
   (dispatch_routing_exclusive ⟨"ep", "dep", "ue"⟩
      ⟨AgentName.unknown "Bogus", "i"⟩ respond_ok).2.2 "Bogus" rfl⟩

/-- The `custom_content` of an emitted entry is present exactly when the
source message is not a User message and itself carries that payload: the
User branch drops it, the `dict(exclude_none=True)` branch keeps it. -/
lemma emit_message_custom_content (m : Msg) (cc : CustomContent) :
    (emit_message m).custom_content = some cc ↔
      m.role ≠ Role.user ∧ m.custom_content = some cc := by
  unfold emit_message
  by_cases h : m.custom_content.isSome ∧ m.role = Role.user
  · rw [if_pos h]
    change (none : Option CustomContent) = some cc ↔ _
    constructor
    · intro hfalse; exact absurd hfalse (by simp)
    · rintro ⟨hne, _⟩; exact absurd h.2 hne
  · rw [if_neg h]
    change m.custom_content = some cc ↔ _
    constructor
    · intro hcc
      refine ⟨fun hrole => h ⟨by rw [hcc]; rfl, hrole⟩, hcc⟩
    · rintro ⟨_, hcc⟩; exact hcc

/-- Claim C4 counterexample: an Assistant message carrying `custom_content`
is emitted via `m.dict(exclude_none=True)`, so its `custom_content` does
appear in an entry of the list handed to the LLM call — the claim that it
never does fails at this input. -/
theorem custom_content_leaks_counterexample :
    ¬ (∀ e ∈ prepare_messages [⟨Role.assistant, "A", some ⟨"ui"⟩⟩] "SP",
        e.custom_content ≠ some ⟨"ui"⟩) := by
  decide

/-- Claim C4 as amended: `custom_content` appears in an entry of the built
message list exactly when some non-User inbound message carries it; in
particular entries built from User messages never expose it, but non-User
messages pass it through. -/
theorem custom_content_in_prompt_iff_nonuser (request_messages : List Msg)
    (system_prompt : String) (cc : CustomContent) :
    (∃ e ∈ prepare_messages request_messages system_prompt,
        e.custom_content = some cc) ↔
      (∃ m ∈ request_messages,
        m.role ≠ Role.user ∧ m.custom_content = some cc) := by
  simp only [prepare_messages, List.mem_cons, List.mem_map]
  constructor
  · rintro ⟨e, he, hcc⟩
    rcases he with rfl | ⟨m, hm, rfl⟩
    · exact absurd hcc (by simp)
    · exact ⟨m, hm, (emit_message_custom_content m cc).1 hcc⟩
  · rintro ⟨m, hm, hrole, hmcc⟩
    exact ⟨emit_message m, Or.inr ⟨m, hm, rfl⟩,
      (emit_message_custom_content m cc).2 ⟨hrole, hmcc⟩⟩

/-- The emitted entry keeps the source message's role (the User branch only
fires when the role already is User). -/
lemma emit_message_role (m : Msg) : (emit_message m).role = m.role := by
  unfold emit_message
  by_cases h : m.custom_content.isSome ∧ m.role = Role.user
  · rw [if_pos h]; exact h.2.symm
  · rw [if_neg h]

/-- The emitted entry keeps the source message's textual content. -/
lemma emit_message_content (m : Msg) : (emit_message m).content = m.content := by
  unfold emit_message
  by_cases h : m.custom_content.isSome ∧ m.role = Role.user
  · rw [if_pos h]
  · rw [if_neg h]

/-- Claim C9 counterexample: for a conversation ending with an Assistant
message, the builder's last output entry is that Assistant entry, not the
entry emitted for the most recent User message (`hi`), so the last element
is not the most recent user-originated entry. -/
theorem last_entry_not_user_counterexample :
    (prepare_messages [⟨Role.user, "hi", none⟩, ⟨Role.assistant, "yo", none⟩]
        "SP").getLast? = some ⟨Role.assistant, "yo", none⟩ ∧
    some (⟨Role.assistant, "yo", none⟩ : OutMsg) ≠
      some (emit_message ⟨Role.user, "hi", none⟩) := by
  decide

/-- Claim C9 as amended: for every non-empty inbound conversation the
builder's last output element is the entry emitted for the conversation's
last message, preserving that message's role and content; it is the most
recent user-originated entry only when the conversation ends with a User
message (for an empty conversation the last element is the system entry). -/
theorem prepare_messages_last_entry (request_messages : List Msg)
    (system_prompt : String) (m : Msg)
    (hlast : request_messages.getLast? = some m) :
    (prepare_messages request_messages system_prompt).getLast? =
        some (emit_message m) ∧
    (emit_message m).role = m.role ∧
    (emit_message m).content = m.content := by
  refine ⟨?_, emit_message_role m, emit_message_content m⟩
  cases request_messages with
  | nil => exact absurd hlast (by simp)
  | cons b t =>
      show (_ :: (b :: t).map emit_message).getLast? = some (emit_message m)
      rw [List.map_cons, List.getLast?_cons_cons, ← List.map_cons,
        List.getLast?_map, hlast]
      rfl

/-- Witness for the amended C9 at a concrete one-message conversation. -/
theorem prepare_messages_last_entry_witness :
    (prepare_messages [⟨Role.user, "q", none⟩] "SP").getLast? =
        some (emit_message ⟨Role.user, "q", none⟩) ∧
    (emit_message (⟨Role.user, "q", none⟩ : Msg)).role = Role.user ∧
    (emit_message (⟨Role.user, "q", none⟩ : Msg)).content = "q" :=
  prepare_messages_last_entry [⟨Role.user, "q", none⟩] "SP"
    ⟨Role.user, "q", none⟩ rfl

/-- Rewriting `final_response_messages` through a last-element decomposition
of the built history. -/
lemma final_response_messages_eq (request_messages : List Msg)
    (agent_content : String) (init : List OutMsg) (last : OutMsg)
    (hdecomp : prepare_messages request_messages FINAL_RESPONSE_SYSTEM_PROMPT =
        init ++ [last]) :
    final_response_messages request_messages agent_content =
      init ++ [{ last with
        content := updated_user_request agent_content last.content }] := by
  simp only [final_response_messages]
  rw [hdecomp, List.getLast?_concat, List.dropLast_concat]

/-- Claim C5: given the history built for the synthesis call, the rewritten
list sent upstream keeps every entry but the last unchanged (same prefix,
same length), and replaces the last entry's content `Q` by the composite in
which the agent content `A` sits in the CONTEXT section that precedes the
USER_REQUEST section containing `Q`. -/
theorem final_response_rewrites_last_entry (request_messages : List Msg)
    (agent_content : String) :
    (final_response_messages request_messages agent_content).length =
        (prepare_messages request_messages FINAL_RESPONSE_SYSTEM_PROMPT).length ∧
    (final_response_messages request_messages agent_content).dropLast =
        (prepare_messages request_messages FINAL_RESPONSE_SYSTEM_PROMPT).dropLast ∧
    ∃ last,
      (prepare_messages request_messages FINAL_RESPONSE_SYSTEM_PROMPT).getLast? =
          some last ∧
      (final_response_messages request_messages agent_content).getLast? =
        some { last with content :=
          "## CONTEXT:\n " ++ agent_content ++
            "\n ---\n ## USER_REQUEST: \n " ++ last.content } := by
  have hne : prepare_messages request_messages FINAL_RESPONSE_SYSTEM_PROMPT ≠ [] := by
    simp [prepare_messages]
  have hdecomp :
      prepare_messages request_messages FINAL_RESPONSE_SYSTEM_PROMPT =
        (prepare_messages request_messages FINAL_RESPONSE_SYSTEM_PROMPT).dropLast ++
          [(prepare_messages request_messages FINAL_RESPONSE_SYSTEM_PROMPT).getLast hne] :=
    (List.dropLast_append_getLast hne).symm
  have heq := final_response_messages_eq request_messages agent_content _ _ hdecomp
  refine ⟨?_, ?_, (prepare_messages request_messages FINAL_RESPONSE_SYSTEM_PROMPT).getLast hne,
    ?_, ?_⟩
  · rw [heq]; conv_rhs => rw [hdecomp]
    simp
  · rw [heq]; conv_rhs => rw [hdecomp]
    rw [List.dropLast_concat, List.dropLast_concat]
  · conv_lhs => rw [hdecomp]
    rw [List.getLast?_concat]
  · rw [heq, List.getLast?_concat]
    rfl

/-- Fold form of `String.join` on a cons cell. -/
lemma string_join_cons (s : String) (l : List String) :
    String.join (s :: l) = s ++ String.join l := by
  have haux : ∀ (l : List String) (a : String),
      l.foldl (fun r t => r ++ t) a = a ++ l.foldl (fun r t => r ++ t) "" := by
    intro l
    induction l with
    | nil => intro a; simp [String.append_empty]
    | cons x xs ih =>
        intro a
        simp only [List.foldl_cons]
        rw [ih (a ++ x), ih ("" ++ x), String.empty_append, String.append_assoc]
  simp only [String.join, List.foldl_cons]
  rw [haux l ("" ++ s), String.empty_append]

/-- The streaming loop, folded over any chunk sequence from any starting
accumulator, appends exactly the fragment sequence to both components. -/
lemma foldl_stream_step (chunks : List StreamChunk) :
    ∀ (c : String) (l : List String),
      chunks.foldl stream_step (c, l) =
        (c ++ String.join (fragments chunks), l ++ fragments chunks) := by
  induction chunks with
  | nil =>
      intro c l
      simp [fragments, String.join, String.append_empty]
  | cons ch rest ih =>
      intro c l
      have hfr : fragments (ch :: rest) =
          match chunk_fragment ch with
          | none => fragments rest
          | some s => s :: fragments rest := by
        simp [fragments, List.filterMap_cons]
        cases chunk_fragment ch <;> simp
      cases hf : chunk_fragment ch with
      | none =>
          rw [List.foldl_cons]
          show List.foldl stream_step (stream_step (c, l) ch) rest = _
          rw [show stream_step (c, l) ch = (c, l) by simp [stream_step, hf]]
          rw [ih c l, hfr, hf]
      | some s =>
          rw [List.foldl_cons]
          show List.foldl stream_step (stream_step (c, l) ch) rest = _
          rw [show stream_step (c, l) ch = (c ++ s, l ++ [s]) by
            simp [stream_step, hf]]
          rw [ih (c ++ s) (l ++ [s]), hfr, hf, string_join_cons,
            String.append_assoc, List.append_assoc]
          rfl

/-- Claim C6: for every chunk sequence, the assembled final message's
content is the concatenation of the stream's fragments in arrival order, the
fragments appended to the caller-visible choice are exactly those fragments
in the same order, and the final message's `custom_content` is the input
agent message's `custom_content` unchanged. -/
theorem final_response_stream_accumulation (chunks : List StreamChunk)
    (agent_message : Msg) :
    (final_response chunks agent_message).1.content =
        String.join (fragments chunks) ∧
    (final_response chunks agent_message).2 = fragments chunks ∧
    (final_response chunks agent_message).1.custom_content =
        agent_message.custom_content := by
  unfold final_response
  rw [foldl_stream_step chunks "" []]
  exact ⟨String.empty_append _, List.nil_append _, rfl⟩

/-- Claim C10: a chunk with an empty choices list, a missing delta, or an
absent or empty delta content leaves the accumulator and the emitted
sequence untouched (the first choice is only inspected in the non-empty
arm of the match), and consequently the final content is the in-order
concatenation of exactly the non-empty delta contents (`fragments`). -/
theorem stream_guards (acc : String × List String) (chunk : StreamChunk) :
    (chunk.choices = [] → stream_step acc chunk = acc) ∧
    (∀ c rest, chunk.choices = c :: rest → c.delta = none →
        stream_step acc chunk = acc) ∧
    (∀ c rest d, chunk.choices = c :: rest → c.delta = some d →
        (d.content = none ∨ d.content = some "") →
        stream_step acc chunk = acc) ∧
    (∀ (chunks : List StreamChunk) (agent_message : Msg),
        (final_response chunks agent_message).1.content =
          String.join (fragments chunks)) := by
  refine ⟨fun h => ?_, fun c rest hch hd => ?_,
    fun c rest d hch hd hc => ?_, fun chunks am => ?_⟩
  · simp [stream_step, chunk_fragment, h]
  · simp [stream_step, chunk_fragment, hch, hd]
  · rcases hc with hc | hc <;> simp [stream_step, chunk_fragment, hch, hd, hc]
  · unfold final_response
    rw [foldl_stream_step chunks "" []]
    exact String.empty_append _

/-- Witness for C10 at concrete chunks, one per guard, plus a concrete
two-fragment stream. -/
theorem stream_guards_witness :
    stream_step ("x", ["x"]) ⟨[]⟩ = ("x", ["x"]) ∧
    stream_step ("x", ["x"]) ⟨[⟨none⟩]⟩ = ("x", ["x"]) ∧
    stream_step ("x", ["x"]) ⟨[⟨some ⟨none⟩⟩]⟩ = ("x", ["x"]) ∧
    (final_response [⟨[⟨some ⟨some "Hel"⟩⟩]⟩, ⟨[⟨some ⟨some "lo"⟩⟩]⟩]
        ⟨Role.assistant, "agent", none⟩).1.content =
      String.join (fragments [⟨[⟨some ⟨some "Hel"⟩⟩]⟩, ⟨[⟨some ⟨some "lo"⟩⟩]⟩]) :=
  ⟨(stream_guards ("x", ["x"]) ⟨[]⟩).1 rfl,
   (stream_guards ("x", ["x"]) ⟨[⟨none⟩]⟩).2.1 ⟨none⟩ [] rfl rfl,
   (stream_guards ("x", ["x"]) ⟨[⟨some ⟨none⟩⟩]⟩).2.2.1 ⟨some ⟨none⟩⟩ [] ⟨none⟩
     rfl rfl (Or.inl rfl),
   (stream_guards ("x", ["x"]) ⟨[]⟩).2.2.2
     [⟨[⟨some ⟨some "Hel"⟩⟩]⟩, ⟨[⟨some ⟨some "lo"⟩⟩]⟩]
     ⟨Role.assistant, "agent", none⟩⟩

/-- Claim C7: when the selected gateway's response is an error, the pipeline
result is exactly that error — no final message, partial or otherwise — and
no streaming synthesis LLM call appears in the trace. -/
theorem gateway_error_skips_synthesis (self : MASCoordinator) (o : Oracle)
    (request_messages : List Msg) (cr : CoordinationRequest)
    (g : AgentGateway) (e : Err)
    (hd : o.decision = Except.ok cr)
    (hg : select_agent self cr.agent_name = Except.ok g)
    (hr : o.respond g cr.additional_instructions = Except.error e) :
    (handle_request self o request_messages).1 = Except.error e ∧
    ∀ ms, Event.synthesis_llm_call ms ∉ (handle_request self o request_messages).2 := by
  constructor
  · simp [handle_request, hd, hg, hr]
  · intro ms
    simp [handle_request, hd, hg, hr]

/-- Witness for C7: a concrete run whose gateway fails with `boom`. -/
theorem gateway_error_skips_synthesis_witness :
    (handle_request ⟨"ep", "dep", "ue"⟩
        ⟨Except.ok ⟨AgentName.GPA, "i"⟩, fun _ _ => Except.error "boom",
          Except.ok []⟩ []).1 = Except.error "boom" ∧
    ∀ ms, Event.synthesis_llm_call ms ∉
      (handle_request ⟨"ep", "dep", "ue"⟩
        ⟨Except.ok ⟨AgentName.GPA, "i"⟩, fun _ _ => Except.error "boom",
          Except.ok []⟩ []).2 :=
  gateway_error_skips_synthesis ⟨"ep", "dep", "ue"⟩
    ⟨Except.ok ⟨AgentName.GPA, "i"⟩, fun _ _ => Except.error "boom", Except.ok []⟩
    [] ⟨AgentName.GPA, "i"⟩ (AgentGateway.GPAGateway "ep") "boom" rfl rfl rfl

/-- Claim C8 counterexample: with a gateway that fails after the
`Call GeneralPurpose Agent` stage was opened, the request fails and that
opened stage is never closed — `handle_request` has no `finally`, so the
claim that every opened segment is closed on internal failure is false. -/
theorem open_stage_left_unclosed_counterexample :
    (handle_request ⟨"ep", "dep", "ue"⟩
        ⟨Except.ok ⟨AgentName.GPA, "i"⟩, fun _ _ => Except.error "boom",
          Except.ok []⟩ []).1 = Except.error "boom" ∧
    ¬ stages_closed (handle_request ⟨"ep", "dep", "ue"⟩
        ⟨Except.ok ⟨AgentName.GPA, "i"⟩, fun _ _ => Except.error "boom",
          Except.ok []⟩ []).2 := by
  refine ⟨rfl, fun hcl => ?_⟩
  have hmem := hcl 1 "Call GeneralPurpose Agent" (by decide)
  exact absurd hmem (by decide)

/-- Claim C8 as amended: on every run that completes successfully both
opened progress segments are closed; but when the gateway call fails, the
request fails with that error and the segment opened for the agent call is
left unclosed (the close call is simply never reached — there is no cleanup
handler). -/
theorem stage_closure_amended (self : MASCoordinator) (o : Oracle)
    (request_messages : List Msg) :
    ((handle_request self o request_messages).1.isOk = true →
        stages_closed (handle_request self o request_messages).2) ∧
    (∀ cr g e, o.decision = Except.ok cr →
        select_agent self cr.agent_name = Except.ok g →
        o.respond g cr.additional_instructions = Except.error e →
        (handle_request self o request_messages).1 = Except.error e ∧
        ¬ stages_closed (handle_request self o request_messages).2) := by
  constructor
  · intro hok
    cases hd : o.decision with
    | error e => simp [handle_request, hd, Except.isOk, Except.toBool] at hok
    | ok cr =>
      cases hg : select_agent self cr.agent_name with
      | error e => simp [handle_request, hd, hg, Except.isOk, Except.toBool] at hok
      | ok g =>
        cases hr : o.respond g cr.additional_instructions with
        | error e => simp [handle_request, hd, hg, hr, Except.isOk, Except.toBool] at hok
        | ok am =>
          cases hs : o.synthesis_stream with
          | error e => simp [handle_request, hd, hg, hr, hs, Except.isOk, Except.toBool] at hok
          | ok chunks =>
            have ht : (handle_request self o request_messages).2 =
                [Event.stage_opened 0 "Coordination Request",
                 Event.decision_llm_call
                   (prepare_messages request_messages COORDINATION_REQUEST_SYSTEM_PROMPT),
                 Event.stage_closed 0,
                 Event.stage_opened 1 ("Call " ++ cr.agent_name.display ++ " Agent"),
                 Event.gateway_call g,
                 Event.stage_closed 1,
                 Event.synthesis_llm_call
                   (final_response_messages request_messages am.content)] := by
              simp [handle_request, hd, hg, hr, hs]
            intro id name hmem
            rw [ht] at hmem ⊢
            simp only [List.mem_cons, List.not_mem_nil, or_false,
              Event.stage_opened.injEq, reduceCtorEq, false_or, or_false] at hmem
            rcases hmem with ⟨rfl, _⟩ | ⟨rfl, _⟩ <;> simp
  · intro cr g e hd hg hr
    have ht : (handle_request self o request_messages).2 =
        [Event.stage_opened 0 "Coordination Request",
         Event.decision_llm_call
           (prepare_messages request_messages COORDINATION_REQUEST_SYSTEM_PROMPT),
         Event.stage_closed 0,
         Event.stage_opened 1 ("Call " ++ cr.agent_name.display ++ " Agent"),
         Event.gateway_call g] := by
      simp [handle_request, hd, hg, hr]
    refine ⟨by simp [handle_request, hd, hg, hr], fun hcl => ?_⟩
    have hmem := hcl 1 ("Call " ++ cr.agent_name.display ++ " Agent") (by
      rw [ht]; simp)
    rw [ht] at hmem
    simp at hmem

/-- Witness for the amended C8: a concrete successful run (both stages
closed) and a concrete failing run (the agent-call stage stays open). -/
theorem stage_closure_amended_witness :
    stages_closed (handle_request ⟨"ep", "dep", "ue"⟩
        ⟨Except.ok ⟨AgentName.GPA, "i"⟩, respond_ok, Except.ok []⟩ []).2 ∧
    ((handle_request ⟨"ep", "dep", "ue"⟩
        ⟨Except.ok ⟨AgentName.GPA, "i"⟩, fun _ _ => Except.error "kaput",
          Except.ok []⟩ []).1 = Except.error "kaput" ∧
     ¬ stages_closed (handle_request ⟨"ep", "dep", "ue"⟩
        ⟨Except.ok ⟨AgentName.GPA, "i"⟩, fun _ _ => Except.error "kaput",
          Except.ok []⟩ []).2) :=
  ⟨(stage_closure_amended ⟨"ep", "dep", "ue"⟩
      ⟨Except.ok ⟨AgentName.GPA, "i"⟩, respond_ok, Except.ok []⟩ []).1 rfl,
   (stage_closure_amended ⟨"ep", "dep", "ue"⟩
      ⟨Except.ok ⟨AgentName.GPA, "i"⟩, fun _ _ => Except.error "kaput",
        Except.ok []⟩ []).2 ⟨AgentName.GPA, "i"⟩
      (AgentGateway.GPAGateway "ep") "kaput" rfl rfl rfl⟩

end MASCoord
